import Mathlib

/-!
# Verification of the Dread Rune automation (`scripts/dread-rune.js`)

A shallow embedding of the `DreadRuneAutomation` class of
`scripts/dread-rune.js` from the `pf2e-property-runes` FoundryVTT module,
together with theorems settling the frozen claims about it.

Conventions of the embedding:
* JavaScript objects become Lean structures; properties that may be
  `undefined`/`null` become `Option` fields.
* JavaScript numbers holding condition values, DCs and counts become `Int`
  or `Nat`; token pixel coordinates and the grid size become `ℝ`, and the
  distance function returns `EReal` so that the JavaScript value
  `Infinity` is represented by `⊤`.
* `a || b` on numbers and strings keeps JavaScript's falsiness (both
  `undefined` and `0`, resp. the empty string, fall through to `b`).
* Code that can raise a JavaScript `TypeError` returns
  `Except String _`; a `try { … } catch` block maps the error case back
  to a normal result.  Host API calls that may reject (`ChatMessage.create`,
  `Actor#createEmbeddedDocuments`) fail exactly when the corresponding
  failure flag of the host state is set.
* Functions that write into the host (chat creation, embedded-document
  creation) also return the list of performed writes, in order.
-/

namespace DreadRune

/-! ## JavaScript value helpers -/

/-- JavaScript `v || d` for a possibly-undefined number `v`: `undefined`
and `0` are falsy and fall through to the default. -/
def jsOrInt (v : Option Int) (d : Int) : Int :=
  match v with
  | none => d
  | some n => if n = 0 then d else n

/-- JavaScript `v || d` for a possibly-undefined string `v`: `undefined`
and the empty string are falsy and fall through to the default. -/
def jsOrStr (v : Option String) (d : String) : String :=
  match v with
  | none => d
  | some s => if s = "" then d else s

/-- JavaScript `v > m` for a possibly-undefined number `v`: comparing
`undefined` with a number is always `false`. -/
def jsGtOpt (v : Option Int) (m : Int) : Bool :=
  match v with
  | none => false
  | some n => m < n

/-- JavaScript `s.toLowerCase()`: lowercase character by character. -/
def strToLower (s : String) : String :=
  ⟨s.data.map Char.toLower⟩

/-- Substring test on character lists, used to embed
`String.prototype.includes`. -/
def listContainsSub (needle : List Char) (hay : List Char) : Bool :=
  match hay with
  | [] => needle.isEmpty
  | _ :: t => needle.isPrefixOf hay || listContainsSub needle t

/-- JavaScript `s.includes(sub)`. -/
def jsIncludes (s sub : String) : Bool :=
  listContainsSub sub.data s.data

/-- Decimal value of a digit run, as read by `parseInt`. -/
def digitsToNat (ds : List Char) : Nat :=
  ds.foldl (fun acc c => acc * 10 + (c.toNat - '0'.toNat)) 0

/-- Attempt to match the regular expression `/Frightened\s+(\d+)/` at the
start of `l`, returning the captured number. -/
def tryFrightenedAt (l : List Char) : Option Nat :=
  if ("Frightened".data).isPrefixOf l then
    let after := l.drop ("Frightened".data).length
    let ws := after.takeWhile (fun c => c.isWhitespace)
    if ws.isEmpty then none
    else
      let ds := (after.drop ws.length).takeWhile (fun c => c.isDigit)
      if ds.isEmpty then none else some (digitsToNat ds)
  else none

/-- Scan a label for the first match of `/Frightened\s+(\d+)/`. -/
def scanFrightened : List Char → Option Nat
  | [] => none
  | c :: rest =>
    match tryFrightenedAt (c :: rest) with
    | some n => some n
    | none => scanFrightened rest

/-- `label.match(/Frightened\s+(\d+)/)` followed by
`frightenedMatch ? parseInt(frightenedMatch[1]) : 1`. -/
def matchFrightenedValue (label : String) : Int :=
  match scanFrightened label.data with
  | some n => (n : Int)
  | none => 1

/-! ## Data model: views over the host's object graph -/

/-- A condition record as stored by the host (and as returned by
`findFrightenedCondition`): `slug`, `value` and `name` properties, each
possibly absent. -/
structure Condition where
  slug : Option String := none
  value : Option Int := none
  name : Option String := none
deriving DecidableEq

/-- The shape of `actor.system.conditions`, which varies between host
versions: absent, a plain array, a `Map`, a Foundry `Collection`
(which extends `Map` and, unlike it, has a `find` method), or a plain
keyed object. -/
inductive CondShape where
  | undef
  | arr (cs : List Condition)
  | jsMap (entries : List (String × Condition))
  | coll (entries : List (String × Condition))
  | keyed (entries : List (String × Condition))
deriving DecidableEq

namespace CondShape

/-- JavaScript truthiness of the `conditions` property: every object is
truthy, only `undefined` is falsy here. -/
def truthy : CondShape → Bool
  | undef => false
  | _ => true

/-- Whether the value has a callable `find` method: arrays and Foundry
`Collection`s do, plain `Map`s and plain objects do not. -/
def hasFind : CondShape → Bool
  | arr _ => true
  | coll _ => true
  | _ => false

/-- The values iterated by `.find(...)` (array elements, or a
`Collection`'s values in insertion order). -/
def findValues : CondShape → List Condition
  | arr cs => cs
  | coll es => es.map (fun e => e.2)
  | _ => []

/-- `conditions instanceof Map`: true for `Map` and for Foundry's
`Collection`, which extends `Map`. -/
def instOfMap : CondShape → Bool
  | jsMap _ => true
  | coll _ => true
  | _ => false

/-- `conditions instanceof Collection`. -/
def instOfColl : CondShape → Bool
  | coll _ => true
  | _ => false

/-- The `[id, condition]` entries iterated by `for … of` on a `Map` or
`Collection`. -/
def mapEntries : CondShape → List (String × Condition)
  | jsMap es => es
  | coll es => es
  | _ => []

/-- `typeof conditions === 'object' && !Array.isArray(conditions)`. -/
def objectNotArray : CondShape → Bool
  | jsMap _ => true
  | coll _ => true
  | keyed _ => true
  | _ => false

/-- `Object.keys(conditions)` with the stored value of each key: own
enumerable properties, so empty for `Map`/`Collection` (whose entries are
internal), and the entries themselves for a plain keyed object. -/
def ownEntries : CondShape → List (String × Condition)
  | keyed es => es
  | _ => []

end CondShape

/-- An active effect in `actor.effects`: `slug` may be absent, `name` is
always a string, `value` is the effect's own `value` property (absent on
ordinary effects) and `systemValueValue` is `effect.system?.value?.value`. -/
structure Effect where
  slug : Option String := none
  name : String
  value : Option Int := none
  systemValueValue : Option Int := none
deriving DecidableEq

/-- A modifier record (as found in `…attributes.ac.modifiers`). -/
structure Modifier where
  slug : Option String := none
  label : String
deriving DecidableEq

/-- A generic sub-record of `actor.system`: carries the properties the
automation reads from such records (`modifiers`, `value`, `level`,
`name`), each possibly absent. -/
structure SubRecord where
  modifiers : Option (List Modifier) := none
  value : Option Int := none
  level : Option Int := none
  name : Option String := none
deriving DecidableEq

/-- `actor.system.details.conditions`. -/
structure DetailsConditions where
  frightened : Option SubRecord := none
deriving DecidableEq

/-- `actor.system.details`; the optional `frightened` key models a host
that stores the condition directly on the details object. -/
structure Details where
  conditions : Option DetailsConditions := none
  frightened : Option SubRecord := none
deriving DecidableEq

/-- `actor.system.traits`: the tag list under `value`, plus an optional
`frightened` key for hosts that store the condition there. -/
structure Traits where
  value : Option (List String) := none
  frightened : Option SubRecord := none
deriving DecidableEq

/-- `actor.system.modifiers`. -/
structure ModifiersObj where
  frightened : Option SubRecord := none
deriving DecidableEq

/-- `actor.system`: the sub-objects the automation reads.
`attributes` is the ordered list of the object's own properties. -/
structure ActorSystem where
  conditions : CondShape := .undef
  traits : Option Traits := none
  details : Option Details := none
  attributes : Option (List (String × SubRecord)) := none
  modifiers : Option ModifiersObj := none
deriving DecidableEq

/-- A property rune of an armor item: either a bare string or a
structured record with optional `name` and `slug`. -/
inductive RuneVal where
  | str (s : String)
  | obj (name : Option String) (slug : Option String)
deriving DecidableEq

/-- An armor item: its `isEquipped` flag and
`armor.system.runes?.property` (absent when the armor has no rune data). -/
structure Armor where
  isEquipped : Bool
  runesProperty : Option (List RuneVal) := none
deriving DecidableEq

/-- An actor: identity, host `type` string (`"character"`, `"npc"`, …),
display name, system data, the armor list of `actor.itemTypes.armor`, and
the active-effect list. -/
structure Actor where
  id : String
  type : String
  name : String
  system : ActorSystem := {}
  itemTypesArmor : List Armor := []
  effects : List Effect := []
deriving DecidableEq

/-- A token placed on a scene: its actor (if any) and the pixel
coordinates of its center point. -/
structure Token where
  actor : Option Actor := none
  x : ℝ
  y : ℝ

/-- A scene: its token list and `scene.grid.size` in pixels per grid
unit. -/
structure Scene where
  tokens : List Token
  gridSize : ℝ

/-- The module's world settings as read through `game.settings.get`. -/
structure Settings where
  enableDreadRune : Bool
  showChatMessages : Bool
  debugMode : Bool
deriving DecidableEq

/-- The host state an evaluation runs against: the active scene (if any),
the current settings, and flags making the fallible host APIs
(`ChatMessage.create`, `createEmbeddedDocuments`) reject. -/
structure HostState where
  activeScene : Option Scene := none
  settings : Settings
  chatCreateFails : Bool := false
  createDocsFails : Bool := false

/-! ## Writes issued to the host -/

/-- The item-like document created on a failed save
(`preventDecreaseEffect` in the source), keeping the fields the claims
are about. -/
structure EffectDoc where
  docId : String
  name : String
  durationValue : Int
  durationUnit : String
deriving DecidableEq

/-- The chat messages the automation can create, abstracted from their
HTML to their informational content. -/
inductive ChatContent where
  | welcome
  | announceSave (targetName : String) (runeName : String) (dc : Int)
      (multiNames : List String)
  | failPreventBelow (targetName : String) (runeName : String) (minF : Int)
  | failNoDecrease (targetName : String) (runeName : String)
deriving DecidableEq

/-- A write performed against the host's stores. -/
inductive HostWrite where
  | chatCreate (c : ChatContent)
  | createEmbeddedItem (actorId : String) (doc : EffectDoc)
deriving DecidableEq

/-! ## Settings registration (`initializeSettings`) -/

/-- The `type` of a registered setting. -/
inductive SettingType where
  | boolType
  | numberType
deriving DecidableEq

/-- The default value of a registered setting. -/
inductive SettingDefault where
  | boolVal (b : Bool)
  | numVal (n : Int)
deriving DecidableEq

/-- One `game.settings.register` call. -/
structure SettingReg where
  key : String
  settingName : String
  settingType : SettingType
  defaultValue : SettingDefault
deriving DecidableEq

/-- The settings registered by `initializeSettings`, in registration
order. -/
def registeredSettings : List SettingReg :=
  [⟨"enable-dread-rune", "Enable Dread Rune Automation", .boolType, .boolVal true⟩,
   ⟨"show-chat-messages", "Show Chat Messages", .boolType, .boolVal true⟩,
   ⟨"debug-mode", "Debug Mode", .boolType, .boolVal true⟩]

/-! ## Condition extractor (`findFrightenedCondition`) -/

/-- Methods 9–11 helper: first modifier with slug `"frightened"` in the
`modifiers` array of any attribute entry, scanning entries in property
order (`findFrightenedCondition`, Method 11). -/
def findAttrModFrightened : List (String × SubRecord) → Option Modifier
  | [] => none
  | (_, ad) :: rest =>
    match ad.modifiers with
    | some mods =>
      match mods.find? (fun m => m.slug = some "frightened") with
      | some m => some m
      | none => findAttrModFrightened rest
    | none => findAttrModFrightened rest

/-- The mock condition Methods 9 builds from a sub-record:
`{slug: "frightened", value: c.value || c.level || 1, name: c.name || "Frightened"}`. -/
def mockFromSubRecord (c : SubRecord) : Condition :=
  ⟨some "frightened", some (jsOrInt c.value (jsOrInt c.level 1)),
    some (jsOrStr c.name "Frightened")⟩

/-- `findFrightenedCondition(actor)`: tries the host's possible condition
representations in source order (Methods 1–11) and returns the first
match, or `none` when every strategy fails.

Method 1 calls `actor.system.conditions.find(...)` whenever the
`conditions` property is truthy; on a value without a callable `find`
method (a plain `Map` or a keyed object) this raises a `TypeError`,
embedded as the `Except.error` case. -/
def findFrightenedCondition (actor : Actor) : Except String (Option Condition) := do
  let conds := actor.system.conditions
  -- Method 1: system.conditions.find(c => c.slug === "frightened")
  if conds.truthy then
    if !conds.hasFind then
      throw "TypeError: actor.system.conditions.find is not a function"
    else
      match conds.findValues.find? (fun c => c.slug = some "frightened") with
      | some found => return some found
      | none => pure ()
  -- Method 2: conditions instanceof Map
  if conds.instOfMap then
    match conds.mapEntries.find? (fun e => e.2.slug = some "frightened") with
    | some e => return some e.2
    | none => pure ()
  -- Method 3: conditions instanceof Collection
  if conds.instOfColl then
    match conds.mapEntries.find? (fun e => e.2.slug = some "frightened") with
    | some e => return some e.2
    | none => pure ()
  -- Method 4: plain object keyed by id (Object.keys probing)
  if conds.truthy && conds.objectNotArray then
    match conds.ownEntries.find? (fun e => e.2.slug = some "frightened") with
    | some e => return some e.2
    | none => pure ()
  -- Method 5: actor.effects, matching on slug
  match actor.effects.find? (fun e => e.slug = some "frightened") with
  | some e => return some ⟨e.slug, e.value, some e.name⟩
  | none => pure ()
  -- Method 6: "frightened" among the trait strings, mock value 1
  match actor.system.traits with
  | some tr =>
    match tr.value with
    | some vals =>
      if vals.contains "frightened" then
        return some ⟨some "frightened", some 1, some "Frightened"⟩
      else pure ()
    | none => pure ()
  | none => pure ()
  -- Method 7: actor.effects, matching on slug or lowercased name
  if actor.effects.length > 0 then
    match actor.effects.find?
        (fun e => e.slug = some "frightened" || jsIncludes (strToLower e.name) "frightened") with
    | some e =>
      return some ⟨some "frightened", some (jsOrInt e.systemValueValue 1), some e.name⟩
    | none => pure ()
  -- Method 8: system.details.conditions.frightened
  match actor.system.details with
  | some d =>
    match d.conditions with
    | some dc =>
      match dc.frightened with
      | some f =>
        return some ⟨some "frightened", some (jsOrInt f.value 1), some "Frightened"⟩
      | none => pure ()
    | none => pure ()
  | none => pure ()
  -- Method 9, location 'conditions': a keyed object exposing a
  -- "frightened" own property (arrays expose only indices, Map and
  -- Collection expose no own entries)
  match conds.ownEntries.find? (fun e => e.1 = "frightened") with
  | some e =>
    return some ⟨some "frightened", some (jsOrInt e.2.value 1),
      some (jsOrStr e.2.name "Frightened")⟩
  | none => pure ()
  -- Method 9, location 'details'
  match actor.system.details with
  | some d =>
    match d.frightened with
    | some c => return some (mockFromSubRecord c)
    | none => pure ()
  | none => pure ()
  -- Method 9, location 'attributes'
  match actor.system.attributes with
  | some entries =>
    match entries.find? (fun e => e.1 = "frightened") with
    | some e => return some (mockFromSubRecord e.2)
    | none => pure ()
  | none => pure ()
  -- Method 9, location 'traits'
  match actor.system.traits with
  | some tr =>
    match tr.frightened with
    | some c => return some (mockFromSubRecord c)
    | none => pure ()
  | none => pure ()
  -- Method 9, location 'modifiers'
  match actor.system.modifiers with
  | some m =>
    match m.frightened with
    | some c => return some (mockFromSubRecord c)
    | none => pure ()
  | none => pure ()
  -- Method 10: system.attributes.ac.modifiers with slug "frightened",
  -- value parsed from the label "Frightened <N>"
  match actor.system.attributes with
  | some entries =>
    match entries.find? (fun e => e.1 = "ac") with
    | some ac =>
      match ac.2.modifiers with
      | some mods =>
        match mods.find? (fun m => m.slug = some "frightened") with
        | some m =>
          return some ⟨some "frightened", some (matchFrightenedValue m.label),
            some "Frightened"⟩
        | none => pure ()
      | none => pure ()
    | none => pure ()
  | none => pure ()
  -- Method 11: the modifiers array of every attribute entry
  match actor.system.attributes with
  | some entries =>
    match findAttrModFrightened entries with
    | some m =>
      return some ⟨some "frightened", some (matchFrightenedValue m.label),
        some "Frightened"⟩
    | none => pure ()
  | none => pure ()
  return none

/-! ## Alliance classifier -/

/-- `ALLY_TRAITS`. -/
def ALLY_TRAITS : List String :=
  ["ally", "friendly", "helpful", "beneficial", "construct", "companion",
   "familiar", "pet", "mount", "steed", "guardian", "protector"]

/-- `ENEMY_TRAITS`. -/
def ENEMY_TRAITS : List String :=
  ["enemy", "hostile", "harmful", "dangerous", "evil", "chaotic",
   "aggressive", "violent", "destructive"]

/-- The name substrings of `isActorAnAlly`'s Method 2. -/
def allyNameIndicators : List String :=
  ["companion", "ally", "friend", "helper", "assistant", "familiar",
   "pet", "mount", "steed", "guardian", "protector", "escort"]

/-- `isActorAnAlly(actor)`: explicit ally/enemy trait tags first, then
construct-companion and name heuristics, then alignment traits,
defaulting to `false` (enemy). -/
def isActorAnAlly (actor : Actor) : Bool :=
  let traitStep : Option Bool :=
    match actor.system.traits with
    | some tr =>
      match tr.value with
      | some vals =>
        let lower := vals.map strToLower
        if lower.any (fun t => ALLY_TRAITS.contains t) then some true
        else if lower.any (fun t => ENEMY_TRAITS.contains t) then some false
        else none
      | none => none
    | none => none
  match traitStep with
  | some b => b
  | none =>
    let nameLower := strToLower actor.name
    let m1 : Bool :=
      match actor.system.traits with
      | some tr =>
        match tr.value with
        | some vals =>
          vals.contains "construct" &&
            (jsIncludes nameLower "companion" || jsIncludes nameLower "construct" ||
              jsIncludes nameLower "golem")
        | none => false
      | none => false
    if m1 then true
    else if allyNameIndicators.any (fun ind => jsIncludes nameLower ind) then true
    else
      match actor.system.traits with
      | some tr =>
        match tr.value with
        | some vals =>
          let lower := vals.map strToLower
          if lower.contains "good" || lower.contains "lawful" then true
          else if lower.contains "evil" || lower.contains "chaotic" then false
          else false
        | none => false
      | none => false

/-- `getActorAlliance(actor)`. -/
def getActorAlliance (actor : Actor) : String :=
  if actor.type = "character" then "party"
  else if actor.type = "npc" then
    if isActorAnAlly actor then "party" else "enemy"
  else "enemy"

/-- `isActorEnemyOf(actor1, actor2)`: enemies iff the alliances differ. -/
def isActorEnemyOf (actor1 actor2 : Actor) : Bool :=
  !(getActorAlliance actor1 == getActorAlliance actor2)

/-! ## Rune source detector -/

/-- A Dread Rune tier's fixed attributes. -/
structure RuneData where
  name : String
  dc : Int
  range : ℝ
  minFrightened : Option Int

/-- The immutable tier table `DREAD_RUNE_TYPES`. -/
def DREAD_RUNE_TYPES (runeType : String) : Option RuneData :=
  if runeType = "lesser" then some ⟨"Lesser Dread Rune", 20, 30, some 1⟩
  else if runeType = "moderate" then some ⟨"Moderate Dread Rune", 29, 30, some 2⟩
  else if runeType = "greater" then some ⟨"Greater Dread Rune", 38, 30, none⟩
  else none

/-- The rune's name as the source computes it:
a bare string as is, otherwise `rune.name || rune.slug || ''`. -/
def runeNameOf : RuneVal → String
  | .str s => s
  | .obj n sl => jsOrStr n (jsOrStr sl "")

/-- `runeName.toLowerCase().includes('dread')`. -/
def runeMatchesDread (r : RuneVal) : Bool :=
  jsIncludes (strToLower (runeNameOf r)) "dread"

/-- The single armor the detector inspects:
`actor.itemTypes.armor.find(armor => armor.isEquipped)`. -/
def firstEquippedArmor (actor : Actor) : Option Armor :=
  actor.itemTypesArmor.find? (fun armor => armor.isEquipped)

/-- `hasDreadRuneArmor(actor)`: a property rune of the equipped armor
whose name contains `"dread"` case-insensitively (with the redundant
legacy string-only fallback of the source). -/
def hasDreadRuneArmor (actor : Actor) : Bool :=
  match firstEquippedArmor actor with
  | none => false
  | some equippedArmor =>
    match equippedArmor.runesProperty with
    | some runes =>
      if runes.any runeMatchesDread then true
      else
        runes.any (fun r =>
          match r with
          | .str s => jsIncludes (strToLower s) "dread"
          | .obj _ _ => false)
    | none => false

/-- The tier key chosen for a dread rune's name: `"greater"` /
`"moderate"` by substring check, `"lesser"` otherwise. -/
def classifyDreadTier (runeName : String) : String :=
  if jsIncludes (strToLower runeName) "greater" then "greater"
  else if jsIncludes (strToLower runeName) "moderate" then "moderate"
  else "lesser"

/-- `getDreadRuneData(actor)`: tier data of the first dread rune on the
equipped armor, `none` when there is no equipped armor, no rune data or
no dread rune. -/
def getDreadRuneData (actor : Actor) : Option RuneData :=
  match firstEquippedArmor actor with
  | none => none
  | some equippedArmor =>
    match equippedArmor.runesProperty with
    | some runes =>
      match runes.find? runeMatchesDread with
      | some r => DREAD_RUNE_TYPES (classifyDreadTier (runeNameOf r))
      | none => none
    | none => none

/-! ## Spatial distance resolver (`getDistanceBetween`) -/

/-- `scene.tokens.find(t => t.actor?.id === actor.id)`. -/
def findTokenFor (scene : Scene) (actor : Actor) : Option Token :=
  scene.tokens.find? (fun t => (t.actor.map Actor.id) == some actor.id)

open scoped Classical in
/-- `getDistanceBetween(actor1, actor2)`: Euclidean pixel distance of the
two token centers divided by the grid size, times 5 feet; `⊤`
(JavaScript `Infinity`) when there is no active scene or either token is
missing. -/
noncomputable def getDistanceBetween (st : HostState) (actor1 actor2 : Actor) : EReal :=
  match st.activeScene with
  | none => ⊤
  | some scene =>
    match findTokenFor scene actor1, findTokenFor scene actor2 with
    | some token1, some token2 =>
      let distance := Real.sqrt ((token2.x - token1.x) ^ 2 + (token2.y - token1.y) ^ 2)
      (((distance / scene.gridSize) * 5 : ℝ) : EReal)
    | _, _ => ⊤

/-! ## Rune-bearer enumeration and range checks -/

/-- `getDreadRuneActors(scene)`: the actors of the scene's tokens that
wear dread-rune armor, in token order. -/
def getDreadRuneActors (scene : Scene) : List Actor :=
  scene.tokens.filterMap (fun token =>
    match token.actor with
    | some a => if hasDreadRuneArmor a then some a else none
    | none => none)

open scoped Classical in
/-- The loop of `isWithinDreadRuneRange`: first candidate whose own
tier range covers the distance wins. -/
noncomputable def withinRangeLoop (st : HostState) (actor : Actor) : List Actor → Bool
  | [] => false
  | dreadRuneActor :: rest =>
    match getDreadRuneData dreadRuneActor with
    | none => withinRangeLoop st actor rest
    | some runeData =>
      if getDistanceBetween st actor dreadRuneActor ≤ ((runeData.range : ℝ) : EReal) then true
      else withinRangeLoop st actor rest

/-- `isWithinDreadRuneRange(actor)`. -/
noncomputable def isWithinDreadRuneRange (st : HostState) (actor : Actor) : Bool :=
  match st.activeScene with
  | none => false
  | some scene =>
    let dreadRuneActors := getDreadRuneActors scene
    if dreadRuneActors.length = 0 then false
    else withinRangeLoop st actor dreadRuneActors

open scoped Classical in
/-- The loop of `getAllDreadRuneActorsAffecting`. -/
noncomputable def affectingLoop (st : HostState) (target : Actor) : List Actor → List Actor
  | [] => []
  | dreadRuneActor :: rest =>
    match getDreadRuneData dreadRuneActor with
    | none => affectingLoop st target rest
    | some runeData =>
      if getDistanceBetween st target dreadRuneActor ≤ ((runeData.range : ℝ) : EReal) then
        dreadRuneActor :: affectingLoop st target rest
      else affectingLoop st target rest

/-- `getAllDreadRuneActorsAffecting(frightenedActor)`: every rune bearer
within its own tier's range, for reporting. -/
noncomputable def getAllDreadRuneActorsAffecting (st : HostState) (frightenedActor : Actor) :
    List Actor :=
  match st.activeScene with
  | none => []
  | some scene => affectingLoop st frightenedActor (getDreadRuneActors scene)

open scoped Classical in
/-- The loop of `getDreadRuneActorAffecting`: fold keeping the candidate
with the strictly highest DC seen so far (`highestDCActor`, `highestDC`),
skipping candidates without rune data or out of their own range. -/
noncomputable def dreadAffectingGo (st : HostState) (target : Actor) :
    List Actor → Option Actor → Int → Option Actor
  | [], highestDCActor, _ => highestDCActor
  | dreadRuneActor :: rest, highestDCActor, highestDC =>
    match getDreadRuneData dreadRuneActor with
    | none => dreadAffectingGo st target rest highestDCActor highestDC
    | some runeData =>
      if getDistanceBetween st target dreadRuneActor ≤ ((runeData.range : ℝ) : EReal) then
        if runeData.dc > highestDC then
          dreadAffectingGo st target rest (some dreadRuneActor) runeData.dc
        else dreadAffectingGo st target rest highestDCActor highestDC
      else dreadAffectingGo st target rest highestDCActor highestDC

/-- `getDreadRuneActorAffecting(frightenedActor)`: the governing source —
the in-range rune bearer with the highest DC, starting from
`highestDC = -1`. -/
noncomputable def getDreadRuneActorAffecting (st : HostState) (frightenedActor : Actor) :
    Option Actor :=
  match st.activeScene with
  | none => none
  | some scene => dreadAffectingGo st frightenedActor (getDreadRuneActors scene) none (-1)

/-! ## Evaluation gate and turn-end trigger -/

/-- `doesFrightenedLevelMeetRuneRequirements(frightenedActor, frightenedValue)`:
`true` unconditionally for the greater tier (no floor), otherwise
`frightenedValue >= runeData.minFrightened`; `false` when no governing
source or rune data exists. -/
noncomputable def doesFrightenedLevelMeetRuneRequirements (st : HostState)
    (frightenedActor : Actor) (frightenedValue : Int) : Bool :=
  match getDreadRuneActorAffecting st frightenedActor with
  | none => false
  | some dreadRuneActor =>
    match getDreadRuneData dreadRuneActor with
    | none => false
    | some runeData =>
      match runeData.minFrightened with
      | none => true
      | some minF => frightenedValue ≥ minF

/-- `shouldCheckDreadRune(actor)`: governing source exists, the actor is
its enemy, the actor is frightened at a level meeting the tier's floor,
and some rune bearer is within range.  The frightened probe can raise;
the error propagates to the caller. -/
noncomputable def shouldCheckDreadRune (st : HostState) (actor : Actor) :
    Except String Bool := do
  match getDreadRuneActorAffecting st actor with
  | none => return false
  | some dreadRuneActor =>
    if !isActorEnemyOf actor dreadRuneActor then return false
    else
      match ← findFrightenedCondition actor with
      | none => return false
      | some frightenedCondition =>
        let frightenedValue := jsOrInt frightenedCondition.value 1
        if !doesFrightenedLevelMeetRuneRequirements st actor frightenedValue then
          return false
        else return (isWithinDreadRuneRange st actor)

/-- `processDreadRuneEffect(actor)`: announces the save against the
governing source's DC (listing all in-range sources when several).  The
whole body runs inside `try { … } catch`, so the function itself never
raises; it returns the chat writes it performed. -/
noncomputable def processDreadRuneEffect (st : HostState) (actor : Actor) :
    List HostWrite × Except String Unit :=
  let result : List HostWrite × Option String :=
    match getDreadRuneActorAffecting st actor with
    | none => ([], none)
    | some dreadRuneActor =>
      match getDreadRuneData dreadRuneActor with
      | none => ([], none)
      | some runeData =>
        match findFrightenedCondition actor with
        | .error e => ([], some e)
        | .ok none => ([], none)
        | .ok (some _) =>
          let allAffectingActors := getAllDreadRuneActorsAffecting st actor
          let multiNames :=
            if allAffectingActors.length > 1 then allAffectingActors.map Actor.name
            else []
          if st.settings.showChatMessages then
            if st.chatCreateFails then ([], some "ChatMessage.create failed")
            else
              ([HostWrite.chatCreate
                  (.announceSave actor.name runeData.name runeData.dc multiNames)], none)
          else ([], none)
  -- catch: the error is logged and swallowed
  (result.1, .ok ())

/-- `handleFailedWillSave(actor, dreadRuneActor, runeData)`: on a failed
save, creates the one-round floor effect when the frightened value
strictly exceeds a defined floor, announces "cannot decrease at all" for
the floorless greater tier, and does nothing when the value is at or
below the floor.  The body runs inside `try { … } catch`, so the
function never raises. -/
def handleFailedWillSave (st : HostState) (actor dreadRuneActor : Actor)
    (runeData : RuneData) : List HostWrite × Except String Unit :=
  let result : List HostWrite × Option String :=
    match findFrightenedCondition actor with
    | .error e => ([], some e)
    | .ok none => ([], none)
    | .ok (some frightenedCondition) =>
      let currentValue := frightenedCondition.value
      match runeData.minFrightened with
      | some minFrightened =>
        if jsGtOpt currentValue minFrightened then
          if st.createDocsFails then ([], some "createEmbeddedDocuments failed")
          else
            let w := HostWrite.createEmbeddedItem actor.id
              ⟨"dread-rune-prevent-decrease",
                runeData.name ++ " - Prevent Frightened Decrease", 1, "rounds"⟩
            if st.settings.showChatMessages then
              if st.chatCreateFails then ([w], some "ChatMessage.create failed")
              else ([w, HostWrite.chatCreate
                      (.failPreventBelow actor.name runeData.name minFrightened)], none)
            else ([w], none)
        else ([], none)
      | none =>
        if st.settings.showChatMessages then
          if st.chatCreateFails then ([], some "ChatMessage.create failed")
          else ([HostWrite.chatCreate (.failNoDecrease actor.name runeData.name)], none)
        else ([], none)
  -- catch: the error is logged and swallowed
  (result.1, .ok ())

/-- `combatant.actor` as delivered by the `pf2e.endTurn` hook. -/
structure Combatant where
  actor : Option Actor := none

/-- `onEndTurn(combatant, combat)`: the registered turn-end handler.
Null inputs and a disabled module are silent no-ops; otherwise the
evaluation gate runs (its exceptions propagate — only
`processDreadRuneEffect` has its own `try`/`catch`), and on a positive
gate the announcement runs. -/
noncomputable def onEndTurn (st : HostState) (combatant : Option Combatant)
    (combat : Option Unit) : List HostWrite × Except String Unit :=
  match combat, combatant with
  | some _, some cbt =>
    match cbt.actor with
    | none => ([], .ok ())
    | some actor =>
      if !st.settings.enableDreadRune then ([], .ok ())
      else
        match shouldCheckDreadRune st actor with
        | .error e => ([], .error e)
        | .ok true => processDreadRuneEffect st actor
        | .ok false => ([], .ok ())
  | _, _ => ([], .ok ())

/-! ## Spec-side characterizations (for refinement statements) -/

/-- Modelled from the spec: the straight-line Euclidean pixel distance
between two token centers ("Euclidean distance between token center
points in pixels"). -/
noncomputable def specPixelDistance (token1 token2 : Token) : ℝ :=
  Real.sqrt ((token2.x - token1.x) ^ 2 + (token2.y - token1.y) ^ 2)

open scoped Classical in
/-- Modelled from the spec: the candidate list of the governing-source
selection — every enumerated rune bearer paired with its tier data, kept
when its distance to the target is within its own tier's range, in
enumeration order. -/
noncomputable def specInRangeCandidates (st : HostState) (target : Actor)
    (cands : List Actor) : List (Actor × RuneData) :=
  cands.filterMap (fun a =>
    match getDreadRuneData a with
    | none => none
    | some rd =>
      if getDistanceBetween st target a ≤ ((rd.range : ℝ) : EReal) then some (a, rd)
      else none)

/-- The abstract highest-DC fold over an explicit candidate list: starting
above threshold `highestDC`, replace the running best exactly on a
strictly larger DC, so the first-enumerated candidate wins exact ties. -/
def runFirstMax : List (Actor × RuneData) → Int → Option (Actor × RuneData)
  | [], _ => none
  | p :: rest, highestDC =>
    if highestDC < p.2.dc then some ((runFirstMax rest p.2.dc).getD p)
    else runFirstMax rest highestDC

/-! ## Concrete host states used to instantiate the theorems -/

/-- Tier data of the lesser rune. -/
def lesserRuneData : RuneData := ⟨"Lesser Dread Rune", 20, 30, some 1⟩

/-- Tier data of the moderate rune. -/
def modRuneData : RuneData := ⟨"Moderate Dread Rune", 29, 30, some 2⟩

/-- Tier data of the greater rune. -/
def greaterRuneData : RuneData := ⟨"Greater Dread Rune", 38, 30, none⟩

/-- An equipped armor bearing a lesser dread rune. -/
def lesserArmor : Armor := ⟨true, some [RuneVal.str "Lesser Dread Rune"]⟩

/-- An equipped armor bearing a moderate dread rune. -/
def modArmor : Armor := ⟨true, some [RuneVal.str "Moderate Dread Rune"]⟩

/-- A player character wearing the lesser-rune armor (DC 20). -/
def bearerLess : Actor :=
  { id := "b-less", type := "character", name := "Seelah", itemTypesArmor := [lesserArmor] }

/-- A player character wearing the moderate-rune armor (DC 29). -/
def bearerMod : Actor :=
  { id := "b-mod", type := "character", name := "Valeros", itemTypesArmor := [modArmor] }

/-- A hostile NPC whose conditions are an array holding frightened 2. -/
def zombie : Actor :=
  { id := "t-zombie", type := "npc", name := "Zombie",
    system := { conditions := .arr [⟨some "frightened", some 2, some "Frightened"⟩] } }

/-- A hostile NPC whose conditions are a `Map` holding frightened 2: the
shape Method 2 of `findFrightenedCondition` was written for. -/
def ghoul : Actor :=
  { id := "t-ghoul", type := "npc", name := "Ghoul",
    system := { conditions := .jsMap [("c1", ⟨some "frightened", some 2, some "Frightened"⟩)] } }

/-- A hostile NPC whose conditions are a plain keyed object holding
frightened 3: the shape Method 4 of `findFrightenedCondition` was
written for. -/
def wight : Actor :=
  { id := "t-wight", type := "npc", name := "Wight",
    system := { conditions := .keyed [("frightened", ⟨some "frightened", some 3, none⟩)] } }

/-- An actor with no token anywhere. -/
def ghost : Actor := { id := "t-ghost", type := "npc", name := "Shade" }

/-- The main scene: both bearers and both targets, all tokens at the same
center point (pixel distance 0), 100 pixels per grid unit. -/
def sceneMain : Scene :=
  ⟨[⟨some bearerLess, 0, 0⟩, ⟨some bearerMod, 0, 0⟩, ⟨some zombie, 0, 0⟩,
    ⟨some ghoul, 0, 0⟩], 100⟩

/-- All settings on, host APIs healthy, `sceneMain` active. -/
def stMain : HostState :=
  { activeScene := some sceneMain, settings := ⟨true, true, true⟩ }

/-- A host state with no active scene. -/
def stNoScene : HostState := { activeScene := none, settings := ⟨true, true, true⟩ }

/-- A scene for the distance computation: token centers 50 pixels apart
(a 30/40/50 right triangle), 50 pixels per grid unit, giving 5 feet. -/
def sceneDist : Scene := ⟨[⟨some zombie, 0, 0⟩, ⟨some bearerMod, 30, 40⟩], 50⟩

/-- Host state with `sceneDist` active. -/
def stDist : HostState :=
  { activeScene := some sceneDist, settings := ⟨true, true, true⟩ }

/-! ## General lemmas -/

lemma find?_of_first {α} (p : α → Bool) (l1 l2 : List α) (r : α)
    (h1 : ∀ x ∈ l1, p x = false) (hr : p r = true) :
    (l1 ++ r :: l2).find? p = some r := by
  induction l1 with
  | nil => simpa using List.find?_cons_of_pos _ hr
  | cons a t ih =>
    have ha := h1 a (by simp)
    rw [List.cons_append, List.find?_cons_of_neg _ (by simp [ha])]
    exact ih (fun x hx => h1 x (by simp [hx]))

lemma runFirstMax_eq_none_iff (l : List (Actor × RuneData)) :
    ∀ hi : Int, (runFirstMax l hi = none ↔ ∀ p ∈ l, p.2.dc ≤ hi) := by
  induction l with
  | nil => intro hi; simp [runFirstMax]
  | cons p rest ih =>
    intro hi
    by_cases h : hi < p.2.dc
    · simp only [runFirstMax, if_pos h]
      constructor
      · intro hc; exact absurd hc (Option.some_ne_none _)
      · intro hall; exact absurd (hall p (by simp)) (by omega)
    · simp only [runFirstMax, if_neg h, ih hi, List.mem_cons]
      constructor
      · intro hall q hq
        rcases hq with rfl | hq
        · omega
        · exact hall q hq
      · intro hall q hq
        exact hall q (Or.inr hq)

lemma runFirstMax_eq_some (l : List (Actor × RuneData)) :
    ∀ (hi : Int) (q : Actor × RuneData), runFirstMax l hi = some q →
      q ∈ l ∧ hi < q.2.dc ∧ (∀ p ∈ l, p.2.dc ≤ q.2.dc) ∧
        ∃ l1 l2, l = l1 ++ q :: l2 ∧ ∀ p ∈ l1, p.2.dc < q.2.dc := by
  induction l with
  | nil => intro hi q h; simp [runFirstMax] at h
  | cons p rest ih =>
    intro hi q h
    by_cases hlt : hi < p.2.dc
    · simp only [runFirstMax, if_pos hlt] at h
      injection h with h
      cases hrun : runFirstMax rest p.2.dc with
      | none =>
        rw [hrun, Option.getD_none] at h
        subst h
        refine ⟨by simp, hlt, ?_, [], rest, by simp, by simp⟩
        intro r hr
        rcases List.mem_cons.mp hr with rfl | hr
        · exact le_refl _
        · exact (runFirstMax_eq_none_iff rest p.2.dc).mp hrun r hr
      | some q' =>
        rw [hrun, Option.getD_some] at h
        obtain ⟨hmem, hgt, hmax, l1, l2, hdec, hfirst⟩ := ih p.2.dc q' hrun
        subst h
        refine ⟨by simp [hmem], by omega, ?_, p :: l1, l2, by simp [hdec], ?_⟩
        · intro r hr
          rcases List.mem_cons.mp hr with rfl | hr
          · omega
          · exact hmax r hr
        · intro r hr
          rcases List.mem_cons.mp hr with rfl | hr
          · omega
          · exact hfirst r hr
    · simp only [runFirstMax, if_neg hlt] at h
      obtain ⟨hmem, hgt, hmax, l1, l2, hdec, hfirst⟩ := ih hi q h
      have hple : p.2.dc ≤ hi := by omega
      refine ⟨by simp [hmem], hgt, ?_, p :: l1, l2, by simp [hdec], ?_⟩
      · intro r hr
        rcases List.mem_cons.mp hr with rfl | hr
        · omega
        · exact hmax r hr
      · intro r hr
        rcases List.mem_cons.mp hr with rfl | hr
        · omega
        · exact hfirst r hr

lemma specInRange_cons_skip {st : HostState} {target a : Actor} {l : List Actor}
    (h : getDreadRuneData a = none) :
    specInRangeCandidates st target (a :: l) = specInRangeCandidates st target l := by
  simp [specInRangeCandidates, List.filterMap_cons, h]

lemma specInRange_cons_out {st : HostState} {target a : Actor} {l : List Actor}
    {rd : RuneData} (h : getDreadRuneData a = some rd)
    (hd : ¬ getDistanceBetween st target a ≤ ((rd.range : ℝ) : EReal)) :
    specInRangeCandidates st target (a :: l) = specInRangeCandidates st target l := by
  simp [specInRangeCandidates, List.filterMap_cons, h, hd]

lemma specInRange_cons_in {st : HostState} {target a : Actor} {l : List Actor}
    {rd : RuneData} (h : getDreadRuneData a = some rd)
    (hd : getDistanceBetween st target a ≤ ((rd.range : ℝ) : EReal)) :
    specInRangeCandidates st target (a :: l) = (a, rd) :: specInRangeCandidates st target l := by
  simp [specInRangeCandidates, List.filterMap_cons, h, hd]

lemma mem_specInRangeCandidates {st : HostState} {target : Actor} {l : List Actor}
    {p : Actor × RuneData} (h : p ∈ specInRangeCandidates st target l) :
    p.1 ∈ l ∧ getDreadRuneData p.1 = some p.2 ∧
      getDistanceBetween st target p.1 ≤ ((p.2.range : ℝ) : EReal) := by
  unfold specInRangeCandidates at h
  rw [List.mem_filterMap] at h
  obtain ⟨a, hal, hfa⟩ := h
  cases hra : getDreadRuneData a with
  | none => simp [hra] at hfa
  | some rd =>
    simp only [hra] at hfa
    by_cases hd : getDistanceBetween st target a ≤ ((rd.range : ℝ) : EReal)
    · rw [if_pos hd] at hfa
      injection hfa with hfa
      subst hfa
      exact ⟨hal, hra, hd⟩
    · rw [if_neg hd] at hfa
      cases hfa

lemma go_cons_skip {st : HostState} {target a : Actor} {rest : List Actor}
    {best : Option Actor} {hi : Int} (h : getDreadRuneData a = none) :
    dreadAffectingGo st target (a :: rest) best hi =
      dreadAffectingGo st target rest best hi := by
  simp [dreadAffectingGo, h]

lemma go_cons_out {st : HostState} {target a : Actor} {rest : List Actor}
    {best : Option Actor} {hi : Int} {rd : RuneData} (h : getDreadRuneData a = some rd)
    (hd : ¬ getDistanceBetween st target a ≤ ((rd.range : ℝ) : EReal)) :
    dreadAffectingGo st target (a :: rest) best hi =
      dreadAffectingGo st target rest best hi := by
  simp [dreadAffectingGo, h, hd]

lemma go_cons_hit {st : HostState} {target a : Actor} {rest : List Actor}
    {best : Option Actor} {hi : Int} {rd : RuneData} (h : getDreadRuneData a = some rd)
    (hd : getDistanceBetween st target a ≤ ((rd.range : ℝ) : EReal))
    (hdc : rd.dc > hi) :
    dreadAffectingGo st target (a :: rest) best hi =
      dreadAffectingGo st target rest (some a) rd.dc := by
  simp [dreadAffectingGo, h, hd, hdc]

lemma go_cons_miss {st : HostState} {target a : Actor} {rest : List Actor}
    {best : Option Actor} {hi : Int} {rd : RuneData} (h : getDreadRuneData a = some rd)
    (hd : getDistanceBetween st target a ≤ ((rd.range : ℝ) : EReal))
    (hdc : ¬ rd.dc > hi) :
    dreadAffectingGo st target (a :: rest) best hi =
      dreadAffectingGo st target rest best hi := by
  simp [dreadAffectingGo, h, hd, hdc]

lemma dreadAffectingGo_eq_run (st : HostState) (target : Actor) (l : List Actor) :
    ∀ (best : Option Actor) (hi : Int),
    dreadAffectingGo st target l best hi =
      match runFirstMax (specInRangeCandidates st target l) hi with
      | some q => some q.1
      | none => best := by
  induction l with
  | nil =>
    intro best hi
    simp [dreadAffectingGo, specInRangeCandidates, runFirstMax]
  | cons a rest ih =>
    intro best hi
    cases hra : getDreadRuneData a with
    | none =>
      rw [go_cons_skip hra, specInRange_cons_skip hra, ih]
    | some rd =>
      by_cases hd : getDistanceBetween st target a ≤ ((rd.range : ℝ) : EReal)
      · by_cases hdc : rd.dc > hi
        · rw [go_cons_hit hra hd hdc, specInRange_cons_in hra hd, ih]
          simp only [runFirstMax, if_pos (show hi < rd.dc from hdc)]
          cases hrun : runFirstMax (specInRangeCandidates st target rest) rd.dc with
          | none => simp [hrun]
          | some q' => simp [hrun]
        · rw [go_cons_miss hra hd hdc, specInRange_cons_in hra hd, ih]
          simp only [runFirstMax, if_neg (show ¬ hi < rd.dc from hdc)]
      · rw [go_cons_out hra hd, specInRange_cons_out hra hd, ih]

lemma DREAD_RUNE_TYPES_dc_pos (s : String) (rd : RuneData)
    (h : DREAD_RUNE_TYPES s = some rd) : 0 < rd.dc := by
  unfold DREAD_RUNE_TYPES at h
  split_ifs at h <;> (injection h with h; subst h; norm_num)

lemma getDreadRuneData_table (a : Actor) (rd : RuneData)
    (h : getDreadRuneData a = some rd) : ∃ s, DREAD_RUNE_TYPES s = some rd := by
  unfold getDreadRuneData at h
  cases h1 : firstEquippedArmor a with
  | none => simp [h1] at h
  | some armor =>
    simp only [h1] at h
    cases h2 : armor.runesProperty with
    | none => simp [h2] at h
    | some runes =>
      simp only [h2] at h
      cases h3 : runes.find? runeMatchesDread with
      | none => simp [h3] at h
      | some r => simp only [h3] at h; exact ⟨_, h⟩

lemma getDreadRuneData_dc_pos (a : Actor) (rd : RuneData)
    (h : getDreadRuneData a = some rd) : 0 < rd.dc := by
  obtain ⟨s, hs⟩ := getDreadRuneData_table a rd h
  exact DREAD_RUNE_TYPES_dc_pos s rd hs

lemma getDistanceBetween_eq_coe {st : HostState} {scene : Scene} {a b : Actor}
    {ta tb : Token} (hs : st.activeScene = some scene)
    (ha : findTokenFor scene a = some ta) (hb : findTokenFor scene b = some tb) :
    getDistanceBetween st a b =
      (((Real.sqrt ((tb.x - ta.x) ^ 2 + (tb.y - ta.y) ^ 2) / scene.gridSize) * 5 : ℝ) :
        EReal) := by
  unfold getDistanceBetween
  simp only [hs, ha, hb]

lemma getDistanceBetween_zero {st : HostState} {scene : Scene} {a b : Actor}
    {ta tb : Token} (hs : st.activeScene = some scene)
    (ha : findTokenFor scene a = some ta) (hb : findTokenFor scene b = some tb)
    (hx : ta.x = tb.x) (hy : ta.y = tb.y) :
    getDistanceBetween st a b = ((0 : ℝ) : EReal) := by
  rw [getDistanceBetween_eq_coe hs ha hb, hx, hy]
  norm_num

lemma zero_le_coe30 : ((0 : ℝ) : EReal) ≤ ((30 : ℝ) : EReal) := by
  exact_mod_cast (by norm_num : (0 : ℝ) ≤ (30 : ℝ))

/-! ## Evaluation lemmas at the concrete states -/

lemma dreadRuneActors_main : getDreadRuneActors sceneMain = [bearerLess, bearerMod] := by
  decide

lemma runeData_bearerLess : getDreadRuneData bearerLess = some lesserRuneData := rfl

lemma runeData_bearerMod : getDreadRuneData bearerMod = some modRuneData := rfl

lemma dist_zombie_less : getDistanceBetween stMain zombie bearerLess = ((0 : ℝ) : EReal) :=
  getDistanceBetween_zero (rfl : stMain.activeScene = some sceneMain) rfl rfl rfl rfl

lemma dist_zombie_mod : getDistanceBetween stMain zombie bearerMod = ((0 : ℝ) : EReal) :=
  getDistanceBetween_zero (rfl : stMain.activeScene = some sceneMain) rfl rfl rfl rfl

lemma dist_ghoul_less : getDistanceBetween stMain ghoul bearerLess = ((0 : ℝ) : EReal) :=
  getDistanceBetween_zero (rfl : stMain.activeScene = some sceneMain) rfl rfl rfl rfl

lemma dist_ghoul_mod : getDistanceBetween stMain ghoul bearerMod = ((0 : ℝ) : EReal) :=
  getDistanceBetween_zero (rfl : stMain.activeScene = some sceneMain) rfl rfl rfl rfl

lemma dist_zombie_less_le :
    getDistanceBetween stMain zombie bearerLess ≤ ((lesserRuneData.range : ℝ) : EReal) := by
  rw [dist_zombie_less]; exact zero_le_coe30

lemma dist_zombie_mod_le :
    getDistanceBetween stMain zombie bearerMod ≤ ((modRuneData.range : ℝ) : EReal) := by
  rw [dist_zombie_mod]; exact zero_le_coe30

lemma dist_ghoul_less_le :
    getDistanceBetween stMain ghoul bearerLess ≤ ((lesserRuneData.range : ℝ) : EReal) := by
  rw [dist_ghoul_less]; exact zero_le_coe30

lemma dist_ghoul_mod_le :
    getDistanceBetween stMain ghoul bearerMod ≤ ((modRuneData.range : ℝ) : EReal) := by
  rw [dist_ghoul_mod]; exact zero_le_coe30

lemma govern_zombie : getDreadRuneActorAffecting stMain zombie = some bearerMod := by
  unfold getDreadRuneActorAffecting
  simp only [show stMain.activeScene = some sceneMain from rfl, dreadRuneActors_main]
  rw [go_cons_hit runeData_bearerLess dist_zombie_less_le (by decide)]
  rw [go_cons_hit runeData_bearerMod dist_zombie_mod_le (by decide)]
  rfl

lemma govern_ghoul : getDreadRuneActorAffecting stMain ghoul = some bearerMod := by
  unfold getDreadRuneActorAffecting
  simp only [show stMain.activeScene = some sceneMain from rfl, dreadRuneActors_main]
  rw [go_cons_hit runeData_bearerLess dist_ghoul_less_le (by decide)]
  rw [go_cons_hit runeData_bearerMod dist_ghoul_mod_le (by decide)]
  rfl

lemma meets_zombie_2 : doesFrightenedLevelMeetRuneRequirements stMain zombie 2 = true := by
  unfold doesFrightenedLevelMeetRuneRequirements
  rw [govern_zombie]
  decide

lemma within_zombie : isWithinDreadRuneRange stMain zombie = true := by
  unfold isWithinDreadRuneRange
  simp only [show stMain.activeScene = some sceneMain from rfl, dreadRuneActors_main]
  simp only [withinRangeLoop, runeData_bearerLess, List.length_cons, List.length_nil,
    if_pos dist_zombie_less_le]
  rfl

lemma allAffecting_zombie :
    getAllDreadRuneActorsAffecting stMain zombie = [bearerLess, bearerMod] := by
  unfold getAllDreadRuneActorsAffecting
  simp only [show stMain.activeScene = some sceneMain from rfl, dreadRuneActors_main]
  simp only [affectingLoop, runeData_bearerLess, runeData_bearerMod,
    if_pos dist_zombie_less_le, if_pos dist_zombie_mod_le]

lemma findFrightened_zombie :
    findFrightenedCondition zombie =
      .ok (some ⟨some "frightened", some 2, some "Frightened"⟩) := rfl

lemma findFrightened_ghoul :
    findFrightenedCondition ghoul =
      .error "TypeError: actor.system.conditions.find is not a function" := rfl

lemma shouldCheck_zombie : shouldCheckDreadRune stMain zombie = .ok true := by
  unfold shouldCheckDreadRune
  rw [govern_zombie]
  simp only [findFrightened_zombie,
    show isActorEnemyOf zombie bearerMod = true from by decide,
    Bool.not_true, Bind.bind, Except.bind]
  simp only [show jsOrInt (some 2) 1 = 2 from rfl, meets_zombie_2, within_zombie,
    Bool.not_true]
  rfl

lemma shouldCheck_ghoul :
    shouldCheckDreadRune stMain ghoul =
      .error "TypeError: actor.system.conditions.find is not a function" := by
  unfold shouldCheckDreadRune
  rw [govern_ghoul]
  simp only [findFrightened_ghoul,
    show isActorEnemyOf ghoul bearerMod = true from by decide,
    Bool.not_true, Bind.bind, Except.bind]
  rfl

lemma process_zombie :
    processDreadRuneEffect stMain zombie =
      ([HostWrite.chatCreate
          (.announceSave "Zombie" "Moderate Dread Rune" 29 ["Seelah", "Valeros"])],
        .ok ()) := by
  unfold processDreadRuneEffect
  rw [govern_zombie]
  simp only [runeData_bearerMod, findFrightened_zombie, allAffecting_zombie]
  rfl

lemma onEndTurn_zombie :
    onEndTurn stMain (some ⟨some zombie⟩) (some ()) =
      ([HostWrite.chatCreate
          (.announceSave "Zombie" "Moderate Dread Rune" 29 ["Seelah", "Valeros"])],
        .ok ()) := by
  unfold onEndTurn
  simp only [shouldCheck_zombie]
  exact process_zombie

lemma onEndTurn_ghoul :
    onEndTurn stMain (some ⟨some ghoul⟩) (some ()) =
      ([], .error "TypeError: actor.system.conditions.find is not a function") := by
  unfold onEndTurn
  simp only [shouldCheck_ghoul]
  rfl

/-! ## Claim theorems -/

/-- C9: for every pair of actors with tokens on the active scene and
every grid size `g > 0`, `getDistanceBetween` returns `(d/g)*5` feet
where `d` is the straight-line Euclidean pixel distance between the two
token centers (`specPixelDistance`), with no diagonal special-casing,
and zero pixel distance yields 0 feet. -/
theorem getDistanceBetween_formula (st : HostState) (a b : Actor) (scene : Scene)
    (ta tb : Token) (hs : st.activeScene = some scene)
    (ha : findTokenFor scene a = some ta) (hb : findTokenFor scene b = some tb)
    (hg : 0 < scene.gridSize) :
    getDistanceBetween st a b =
      (((specPixelDistance ta tb / scene.gridSize) * 5 : ℝ) : EReal) ∧
    (ta.x = tb.x → ta.y = tb.y → getDistanceBetween st a b = ((0 : ℝ) : EReal)) := by
  refine ⟨?_, fun hx hy => getDistanceBetween_zero hs ha hb hx hy⟩
  rw [getDistanceBetween_eq_coe hs ha hb]
  rfl

/-- Witness for C9: on `sceneDist` (token centers 50 pixels apart, grid
size 50), the computed distance is `(50/50)*5 = 5` feet. -/
theorem getDistanceBetween_formula_witness :
    getDistanceBetween stDist zombie bearerMod = ((5 : ℝ) : EReal) := by
  have h := (getDistanceBetween_formula stDist zombie bearerMod sceneDist
    ⟨some zombie, 0, 0⟩ ⟨some bearerMod, 30, 40⟩ rfl rfl rfl
    (by show (0 : ℝ) < 50; norm_num)).1
  rw [h]
  have hpix : specPixelDistance (⟨some zombie, 0, 0⟩ : Token)
      (⟨some bearerMod, 30, 40⟩ : Token) = 50 := by
    unfold specPixelDistance
    rw [show (((30 : ℝ) - 0) ^ 2 + ((40 : ℝ) - 0) ^ 2 : ℝ) = 50 ^ 2 by norm_num]
    exact Real.sqrt_sq (by norm_num)
  rw [hpix, show sceneDist.gridSize = 50 from rfl,
    show ((50 : ℝ) / 50) * 5 = 5 by norm_num]

/-- C10: `getDistanceBetween` is total over its inputs and returns `⊤`
(JavaScript `Infinity`) rather than raising when no scene is active or
either actor has no token on the active scene; under a positive grid
size its value is always a non-negative real or `⊤`. -/
theorem getDistanceBetween_total (st : HostState) (a b : Actor) :
    (st.activeScene = none → getDistanceBetween st a b = ⊤) ∧
    (∀ scene, st.activeScene = some scene →
      (findTokenFor scene a = none ∨ findTokenFor scene b = none) →
      getDistanceBetween st a b = ⊤) ∧
    ((∀ scene, st.activeScene = some scene → 0 < scene.gridSize) →
      0 ≤ getDistanceBetween st a b) := by
  refine ⟨?_, ?_, ?_⟩
  · intro h
    unfold getDistanceBetween
    rw [h]
  · intro scene hs hmiss
    unfold getDistanceBetween
    simp only [hs]
    rcases hmiss with h | h
    · simp [h]
    · cases hfa : findTokenFor scene a with
      | none => simp [hfa]
      | some ta => simp [hfa, h]
  · intro hg
    cases hsc : st.activeScene with
    | none =>
      unfold getDistanceBetween
      rw [hsc]
      exact le_top
    | some scene =>
      cases hfa : findTokenFor scene a with
      | none =>
        unfold getDistanceBetween
        simp only [hsc, hfa]
        exact le_top
      | some ta =>
        cases hfb : findTokenFor scene b with
        | none =>
          unfold getDistanceBetween
          simp only [hsc, hfa, hfb]
          exact le_top
        | some tb =>
          rw [getDistanceBetween_eq_coe hsc hfa hfb]
          have hr : (0 : ℝ) ≤
              (Real.sqrt ((tb.x - ta.x) ^ 2 + (tb.y - ta.y) ^ 2) / scene.gridSize) * 5 :=
            mul_nonneg (div_nonneg (Real.sqrt_nonneg _) (le_of_lt (hg scene hsc)))
              (by norm_num)
          exact_mod_cast hr

/-- Witness for C10: with no active scene the distance is `⊤`, and on
the main scene an actor without a token is at distance `⊤`. -/
theorem getDistanceBetween_total_witness :
    getDistanceBetween stNoScene zombie bearerMod = ⊤ ∧
    getDistanceBetween stMain ghost zombie = ⊤ := by
  constructor
  · exact (getDistanceBetween_total stNoScene zombie bearerMod).1 rfl
  · exact (getDistanceBetween_total stMain ghost zombie).2.1 sceneMain rfl (Or.inl rfl)

/-- Every write performed by `processDreadRuneEffect` is a chat-message
creation. -/
lemma processDreadRuneEffect_writes_chat (st : HostState) (a : Actor) :
    ∀ w ∈ (processDreadRuneEffect st a).1, ∃ c, w = HostWrite.chatCreate c := by
  intro w hw
  unfold processDreadRuneEffect at hw
  simp only at hw
  repeat' split at hw
  all_goals simp_all

/-- C3: on the turn-end path the only host write is chat-message
creation — no reachable code path creates the floor-effect document or
any other embedded document on the target actor. -/
theorem onEndTurn_writes_only_chat (st : HostState) (combatant : Option Combatant)
    (combat : Option Unit) :
    ∀ w ∈ (onEndTurn st combatant combat).1, ∃ c, w = HostWrite.chatCreate c := by
  intro w hw
  unfold onEndTurn at hw
  repeat' split at hw
  all_goals first
    | simp at hw
    | exact processDreadRuneEffect_writes_chat st _ w hw

/-- Witness for C3: the write produced by the Zombie's end of turn on
the main scene is a chat creation. -/
theorem onEndTurn_writes_only_chat_witness :
    ∃ c, HostWrite.chatCreate (ChatContent.announceSave "Zombie" "Moderate Dread Rune" 29
      ["Seelah", "Valeros"]) = HostWrite.chatCreate c := by
  apply onEndTurn_writes_only_chat stMain (some ⟨some zombie⟩) (some ())
  rw [onEndTurn_zombie]
  simp

/-- An error at the turn-end boundary can only come from the evaluation
gate: the announcement stage catches its own exceptions. -/
lemma onEndTurn_error_cases (st : HostState) (combatant : Option Combatant)
    (combat : Option Unit) (e : String)
    (he : (onEndTurn st combatant combat).2 = Except.error e) :
    ∃ a cbt, combatant = some cbt ∧ cbt.actor = some a ∧
      shouldCheckDreadRune st a = .error e := by
  cases combat with
  | none => simp [onEndTurn] at he
  | some u =>
    cases combatant with
    | none => simp [onEndTurn] at he
    | some cbt =>
      cases hca : cbt.actor with
      | none => simp [onEndTurn, hca] at he
      | some a =>
        simp only [onEndTurn, hca] at he
        by_cases hen : st.settings.enableDreadRune
        · simp only [hen, Bool.not_true] at he
          cases hs : shouldCheckDreadRune st a with
          | error e' =>
            simp only [hs] at he
            simp at he
            exact ⟨a, cbt, rfl, hca, by rw [hs, he]⟩
          | ok b =>
            cases b
            · simp only [hs] at he
              simp at he
            · simp only [hs] at he
              have hok : (processDreadRuneEffect st a).2 = Except.ok () := rfl
              simp [hok] at he
        · simp only [hen, Bool.not_false] at he
          simp at he

/-- C1 (amended): exceptions raised during announcement or effect
creation are caught inside `processDreadRuneEffect` and
`handleFailedWillSave` (both always return `ok`), but an exception
raised during evaluation (`shouldCheckDreadRune`) propagates out of
`onEndTurn`: every error escaping the handler originates in the
evaluation gate. -/
theorem trigger_exception_containment (st : HostState) (actor dreadRuneActor : Actor)
    (runeData : RuneData) (combatant : Option Combatant) (combat : Option Unit) :
    (processDreadRuneEffect st actor).2 = .ok () ∧
    (handleFailedWillSave st actor dreadRuneActor runeData).2 = .ok () ∧
    (∀ e, (onEndTurn st combatant combat).2 = Except.error e →
      ∃ a cbt, combatant = some cbt ∧ cbt.actor = some a ∧
        shouldCheckDreadRune st a = .error e) := by
  refine ⟨rfl, rfl, ?_⟩
  intro e he
  exact onEndTurn_error_cases st combatant combat e he

/-- Witness for C1: the error escaping `onEndTurn` for the Ghoul is the
one raised by the evaluation gate. -/
theorem trigger_exception_containment_witness :
    shouldCheckDreadRune stMain ghoul =
      .error "TypeError: actor.system.conditions.find is not a function" := by
  obtain ⟨a, cbt, hc, hca, hs⟩ := (trigger_exception_containment stMain ghoul ghoul
    modRuneData (some ⟨some ghoul⟩) (some ())).2.2 _ (by rw [onEndTurn_ghoul])
  injection hc with hc
  subst hc
  injection hca with hca
  subst hca
  exact hs

/-- C1 counterexample: at the main scene the turn-end handler propagates
the `TypeError` raised while evaluating the Ghoul (whose conditions are
`Map`-shaped) — the exception escapes `onEndTurn` instead of being
caught and logged inside the handler. -/
theorem onEndTurn_propagates_eval_exception :
    (onEndTurn stMain (some ⟨some ghoul⟩) (some ())).2 =
      .error "TypeError: actor.system.conditions.find is not a function" := by
  rw [onEndTurn_ghoul]

/-- C2 (code bug): `findFrightenedCondition` is not total — Method 1
calls `.find` on any truthy `conditions` value before the `Map` and
keyed-object probes (Methods 2 and 4) can run, so an actor whose
conditions use the map shape or the keyed-object shape makes the
extractor raise a `TypeError` instead of returning a value. -/
theorem findFrightenedCondition_shape_throws :
    (findFrightenedCondition ghoul =
        .error "TypeError: actor.system.conditions.find is not a function" ∧
      ghoul.system.conditions.instOfMap = true) ∧
    (findFrightenedCondition wight =
        .error "TypeError: actor.system.conditions.find is not a function" ∧
      wight.system.conditions.objectNotArray = true) :=
  ⟨⟨rfl, rfl⟩, ⟨rfl, rfl⟩⟩

/-- C4: the governing-source selector returns at most one rune bearer:
`none` when no scene is active, `none` exactly when no candidate is
within its own tier's range, and otherwise a candidate carrying the
maximal DC among all in-range candidates, sitting at a position every
earlier-enumerated candidate of which has a strictly smaller DC
(first-enumerated wins on an exact DC tie). -/
theorem governing_source_selection (st : HostState) (target : Actor) :
    (st.activeScene = none → getDreadRuneActorAffecting st target = none) ∧
    (∀ scene, st.activeScene = some scene →
      (getDreadRuneActorAffecting st target = none ↔
        specInRangeCandidates st target (getDreadRuneActors scene) = []) ∧
      (∀ x, getDreadRuneActorAffecting st target = some x →
        ∃ rd l1 l2,
          specInRangeCandidates st target (getDreadRuneActors scene) =
            l1 ++ (x, rd) :: l2 ∧
          getDreadRuneData x = some rd ∧
          getDistanceBetween st target x ≤ ((rd.range : ℝ) : EReal) ∧
          (∀ p ∈ specInRangeCandidates st target (getDreadRuneActors scene),
            p.2.dc ≤ rd.dc) ∧
          (∀ p ∈ l1, p.2.dc < rd.dc))) := by
  constructor
  · intro h
    unfold getDreadRuneActorAffecting
    rw [h]
  · intro scene hs
    have hgo : getDreadRuneActorAffecting st target =
        match runFirstMax (specInRangeCandidates st target (getDreadRuneActors scene))
            (-1) with
        | some q => some q.1
        | none => none := by
      unfold getDreadRuneActorAffecting
      simp only [hs]
      exact dreadAffectingGo_eq_run st target _ none (-1)
    constructor
    · cases hrun : runFirstMax (specInRangeCandidates st target (getDreadRuneActors scene))
          (-1) with
      | none =>
        rw [hgo, hrun]
        constructor
        · intro _
          cases hLl : specInRangeCandidates st target (getDreadRuneActors scene) with
          | nil => rfl
          | cons p rest =>
            have hall := (runFirstMax_eq_none_iff _ (-1)).mp hrun
            have hp : p ∈ specInRangeCandidates st target (getDreadRuneActors scene) := by
              rw [hLl]; simp
            have hpos := getDreadRuneData_dc_pos p.1 p.2 (mem_specInRangeCandidates hp).2.1
            have := hall p hp
            omega
        · intro _; rfl
      | some q =>
        rw [hgo, hrun]
        constructor
        · intro h; cases h
        · intro hnil
          obtain ⟨hmem, _, _, _⟩ := runFirstMax_eq_some _ (-1) q hrun
          rw [hnil] at hmem
          cases hmem
    · intro x hx
      rw [hgo] at hx
      cases hrun : runFirstMax (specInRangeCandidates st target (getDreadRuneActors scene))
          (-1) with
      | none => rw [hrun] at hx; cases hx
      | some q =>
        rw [hrun] at hx
        injection hx with hx
        subst hx
        obtain ⟨hmem, hgt, hmax, l1, l2, hdec, hfirst⟩ := runFirstMax_eq_some _ (-1) q hrun
        obtain ⟨hin, hdata, hdist⟩ := mem_specInRangeCandidates hmem
        exact ⟨q.2, l1, l2, hdec, hdata, hdist, hmax, hfirst⟩

/-- The in-range candidate list of the main scene's Zombie: both bearers
are in range, with DCs 20 and 29. -/
lemma specInRange_main_zombie :
    specInRangeCandidates stMain zombie (getDreadRuneActors sceneMain) =
      [(bearerLess, lesserRuneData), (bearerMod, modRuneData)] := by
  rw [dreadRuneActors_main,
    specInRange_cons_in runeData_bearerLess dist_zombie_less_le,
    specInRange_cons_in runeData_bearerMod dist_zombie_mod_le]
  rfl

/-- Witness for C4: on the main scene, with two in-range sources of DC
20 (`bearerLess`) and DC 29 (`bearerMod`), the selector returns the DC
29 source, which dominates every in-range candidate. -/
theorem governing_source_selection_witness :
    getDreadRuneActorAffecting stMain zombie = some bearerMod ∧
    lesserRuneData.dc = 20 ∧ modRuneData.dc = 29 ∧
    (bearerLess, lesserRuneData) ∈
      specInRangeCandidates stMain zombie (getDreadRuneActors sceneMain) ∧
    ∃ rd l1 l2,
      specInRangeCandidates stMain zombie (getDreadRuneActors sceneMain) =
        l1 ++ (bearerMod, rd) :: l2 ∧
      getDreadRuneData bearerMod = some rd ∧
      getDistanceBetween stMain zombie bearerMod ≤ ((rd.range : ℝ) : EReal) ∧
      (∀ p ∈ specInRangeCandidates stMain zombie (getDreadRuneActors sceneMain),
        p.2.dc ≤ rd.dc) ∧
      (∀ p ∈ l1, p.2.dc < rd.dc) := by
  refine ⟨govern_zombie, rfl, rfl, ?_, ?_⟩
  · rw [specInRange_main_zombie]; simp
  · exact ((governing_source_selection stMain zombie).2 sceneMain rfl).2
      bearerMod govern_zombie

/-- C5: for a frightened actor with a governing source, the evaluation
gate returns `true` for a tier with a defined floor exactly when the
frightened magnitude is at or above that floor, and `true`
unconditionally for a tier whose floor is undefined (the greater
tier). -/
theorem frightened_gate_spec (st : HostState) (a : Actor) (v : Int) (bearer : Actor)
    (rd : RuneData) (hg : getDreadRuneActorAffecting st a = some bearer)
    (hd : getDreadRuneData bearer = some rd) :
    (rd.minFrightened = none →
      doesFrightenedLevelMeetRuneRequirements st a v = true) ∧
    (∀ m, rd.minFrightened = some m →
      (doesFrightenedLevelMeetRuneRequirements st a v = true ↔ m ≤ v)) ∧
    greaterRuneData.minFrightened = none := by
  unfold doesFrightenedLevelMeetRuneRequirements
  rw [hg]
  simp only [hd]
  refine ⟨?_, ?_, rfl⟩
  · intro h; simp [h]
  · intro m hm
    simp [hm, ge_iff_le]

/-- Witness for C5: against the governing moderate tier (floor 2), a
magnitude exactly at the floor passes and one below fails. -/
theorem frightened_gate_spec_witness :
    doesFrightenedLevelMeetRuneRequirements stMain zombie 2 = true ∧
    doesFrightenedLevelMeetRuneRequirements stMain zombie 1 = false := by
  have h2 := (frightened_gate_spec stMain zombie 2 bearerMod modRuneData govern_zombie
    runeData_bearerMod).2.1 2 rfl
  have h1 := (frightened_gate_spec stMain zombie 1 bearerMod modRuneData govern_zombie
    runeData_bearerMod).2.1 2 rfl
  refine ⟨h2.mpr (by norm_num), ?_⟩
  cases hb : doesFrightenedLevelMeetRuneRequirements stMain zombie 1
  · rfl
  · exact absurd (h1.mp hb) (by norm_num)

/-- C6: when a failed save is resolved, the one-round floor-effect
document is created on the target if and only if the governing tier has
a defined floor strictly below the current frightened magnitude; a
floorless (greater) tier only emits the "cannot decrease at all"
message, and a magnitude at or below the floor produces no artifact. -/
theorem failed_save_floor_effect (st : HostState) (actor dreadRuneActor : Actor)
    (rd : RuneData) (cond : Condition) (v : Int)
    (hc : findFrightenedCondition actor = .ok (some cond))
    (hv : cond.value = some v)
    (hchat : st.chatCreateFails = false) (hdoc : st.createDocsFails = false)
    (hshow : st.settings.showChatMessages = true) :
    ((∃ doc, HostWrite.createEmbeddedItem actor.id doc ∈
        (handleFailedWillSave st actor dreadRuneActor rd).1 ∧
      doc.durationValue = 1 ∧ doc.durationUnit = "rounds") ↔
      (∃ m, rd.minFrightened = some m ∧ m < v)) ∧
    (rd.minFrightened = none →
      (handleFailedWillSave st actor dreadRuneActor rd).1 =
        [HostWrite.chatCreate (.failNoDecrease actor.name rd.name)]) ∧
    (∀ m, rd.minFrightened = some m → v ≤ m →
      (handleFailedWillSave st actor dreadRuneActor rd).1 = []) := by
  unfold handleFailedWillSave
  simp only [hc]
  cases hmf : rd.minFrightened with
  | none =>
    simp only [hshow, hchat, if_true, Bool.false_eq_true, if_false]
    refine ⟨?_, ?_, ?_⟩
    · simp
    · intro _
      trivial
    · intro m hm hle
      exact absurd hm (by simp)
  | some m =>
    have hgt : jsGtOpt cond.value m = decide (m < v) := by
      rw [hv]; rfl
    simp only [hgt]
    by_cases hlt : m < v
    · simp only [decide_eq_true hlt, if_true, hdoc, Bool.false_eq_true, if_false,
        hshow, hchat]
      refine ⟨?_, ?_, ?_⟩
      · constructor
        · intro _
          exact ⟨m, rfl, hlt⟩
        · intro _
          exact ⟨⟨"dread-rune-prevent-decrease",
            rd.name ++ " - Prevent Frightened Decrease", 1, "rounds"⟩, by simp, rfl, rfl⟩
      · intro h
        exact absurd h (by simp)
      · intro m' hm' hle
        injection hm' with hm'
        omega
    · simp only [decide_eq_false hlt, Bool.false_eq_true, if_false]
      refine ⟨?_, ?_, ?_⟩
      · constructor
        · intro hdoc'
          obtain ⟨doc, hmem, _⟩ := hdoc'
          simp at hmem
        · intro hex
          obtain ⟨m', hm', hlt'⟩ := hex
          injection hm' with hm'
          omega
      · intro h
        exact absurd h (by simp)
      · intro m' hm' hle
        trivial

/-- Witness for C6: the Zombie (frightened 2) gets the one-round floor
effect under the lesser tier (floor 1), only the "cannot decrease at
all" message under the greater tier, and no artifact under the moderate
tier (floor 2). -/
theorem failed_save_floor_effect_witness :
    (∃ doc, HostWrite.createEmbeddedItem zombie.id doc ∈
        (handleFailedWillSave stMain zombie bearerLess lesserRuneData).1 ∧
      doc.durationValue = 1 ∧ doc.durationUnit = "rounds") ∧
    (handleFailedWillSave stMain zombie bearerMod greaterRuneData).1 =
      [HostWrite.chatCreate (.failNoDecrease "Zombie" "Greater Dread Rune")] ∧
    (handleFailedWillSave stMain zombie bearerMod modRuneData).1 = [] := by
  refine ⟨?_, ?_, ?_⟩
  · exact (failed_save_floor_effect stMain zombie bearerLess lesserRuneData _ 2
      findFrightened_zombie rfl rfl rfl rfl).1.mpr ⟨1, rfl, by norm_num⟩
  · exact (failed_save_floor_effect stMain zombie bearerMod greaterRuneData _ 2
      findFrightened_zombie rfl rfl rfl rfl).2.1 rfl
  · exact (failed_save_floor_effect stMain zombie bearerMod modRuneData _ 2
      findFrightened_zombie rfl rfl rfl rfl).2.2 2 rfl (by norm_num)

/-- C7: the rune-tier lookup is pure and total: `none` without an
equipped armor, without rune data, or without a rune whose
name/slug contains "dread" case-insensitively (only the first equipped
armor is inspected, so unequipped armor never counts); otherwise the
first dread rune is classified greater / moderate / lesser by substring
checks, yielding that tier's fixed DC, range and floor. -/
theorem rune_tier_lookup_spec (actor : Actor) :
    (firstEquippedArmor actor = none → getDreadRuneData actor = none) ∧
    (∀ armor, firstEquippedArmor actor = some armor →
      (armor.runesProperty = none → getDreadRuneData actor = none) ∧
      (∀ runes, armor.runesProperty = some runes →
        ((∀ r ∈ runes, runeMatchesDread r = false) → getDreadRuneData actor = none) ∧
        (∀ l1 r l2, runes = l1 ++ r :: l2 →
          (∀ r' ∈ l1, runeMatchesDread r' = false) → runeMatchesDread r = true →
          ((jsIncludes (strToLower (runeNameOf r)) "greater" = true →
              getDreadRuneData actor = some greaterRuneData) ∧
           (jsIncludes (strToLower (runeNameOf r)) "greater" = false →
            jsIncludes (strToLower (runeNameOf r)) "moderate" = true →
              getDreadRuneData actor = some modRuneData) ∧
           (jsIncludes (strToLower (runeNameOf r)) "greater" = false →
            jsIncludes (strToLower (runeNameOf r)) "moderate" = false →
              getDreadRuneData actor = some lesserRuneData))))) ∧
    (DREAD_RUNE_TYPES "greater" = some greaterRuneData ∧
      DREAD_RUNE_TYPES "moderate" = some modRuneData ∧
      DREAD_RUNE_TYPES "lesser" = some lesserRuneData) ∧
    (greaterRuneData.dc = 38 ∧ greaterRuneData.range = 30 ∧
      greaterRuneData.minFrightened = none ∧
      modRuneData.dc = 29 ∧ modRuneData.range = 30 ∧
      modRuneData.minFrightened = some 2 ∧
      lesserRuneData.dc = 20 ∧ lesserRuneData.range = 30 ∧
      lesserRuneData.minFrightened = some 1) := by
  refine ⟨?_, ?_, ⟨rfl, rfl, rfl⟩, rfl, rfl, rfl, rfl, rfl, rfl, rfl, rfl, rfl⟩
  · intro h
    unfold getDreadRuneData
    simp [h]
  · intro armor ha
    refine ⟨?_, ?_⟩
    · intro h
      unfold getDreadRuneData
      simp [ha, h]
    · intro runes hr
      refine ⟨?_, ?_⟩
      · intro hall
        unfold getDreadRuneData
        simp only [ha, hr]
        rw [List.find?_eq_none.mpr (fun x hx => by simp [hall x hx])]
      · intro l1 r l2 hdec hl1 hrm
        have hfind : runes.find? runeMatchesDread = some r := by
          rw [hdec]; exact find?_of_first _ _ _ _ hl1 hrm
        unfold getDreadRuneData
        simp only [ha, hr, hfind]
        unfold classifyDreadTier
        refine ⟨?_, ?_, ?_⟩
        · intro hgr
          rw [if_pos hgr]
          rfl
        · intro hgr hmo
          rw [if_neg (by simp [hgr]), if_pos hmo]
          rfl
        · intro hgr hmo
          rw [if_neg (by simp [hgr]), if_neg (by simp [hmo])]
          rfl

/-- Witness for C7: the moderate bearer's armor classifies as the
moderate tier, and an actor with no equipped armor yields `none`. -/
theorem rune_tier_lookup_spec_witness :
    getDreadRuneData bearerMod = some modRuneData ∧
    getDreadRuneData ghost = none := by
  constructor
  · exact ((((rune_tier_lookup_spec bearerMod).2.1 modArmor rfl).2
      [RuneVal.str "Moderate Dread Rune"] rfl).2 [] (RuneVal.str "Moderate Dread Rune") []
      rfl (by simp) (by decide)).2.1 (by decide) (by decide)
  · exact (rune_tier_lookup_spec ghost).1 rfl

/-- C8 counterexample: every registered setting is a boolean toggle —
there is no save-DC, range or auto-roll setting at all — and the debug
toggle defaults to on, so the claimed six-setting surface with defaults
"DC 20, range 30 ft, auto-roll on, debug off" is false of the code. -/
theorem settings_surface_cex :
    (¬ ∃ s ∈ registeredSettings, s.settingType = SettingType.numberType) ∧
    (∃ s ∈ registeredSettings, s.key = "debug-mode" ∧
      s.defaultValue = SettingDefault.boolVal true) ∧
    (¬ ∃ s ∈ registeredSettings, s.key = "debug-mode" ∧
      s.defaultValue = SettingDefault.boolVal false) ∧
    registeredSettings.length = 3 := by decide

/-- C8 (amended): the configuration surface consists of exactly three
flat boolean world toggles — enable automation, show chat messages and
debug mode — each defaulting to on; DC and range are tier-derived, not
settings, and no auto-roll setting exists. -/
theorem settings_surface_spec :
    registeredSettings.map (fun s => (s.key, s.settingType, s.defaultValue)) =
      [("enable-dread-rune", SettingType.boolType, SettingDefault.boolVal true),
       ("show-chat-messages", SettingType.boolType, SettingDefault.boolVal true),
       ("debug-mode", SettingType.boolType, SettingDefault.boolVal true)] := by decide

end DreadRune
